import Mathlib

/-!
Shallow embedding of the HTTP test-double server in test_server.py
(781flyingdutchman/background_downloader), together with proofs that settle
the frozen claims about its specification. Each definition mirrors the
indicated lines of test_server.py; times, logging and network transport are
outside the model.
-/

namespace TestServer

/-- Model of a Python/JSON value as produced by json.loads on a request body
(floats are omitted; none of the claims depends on them). -/
inductive PyValue where
  | null : PyValue
  | bool : Bool → PyValue
  | int : Int → PyValue
  | str : String → PyValue
  | list : List PyValue → PyValue
  | dict : List (String × PyValue) → PyValue

/-- Python truthiness of a value: None, False, 0, empty string, empty list and
empty dict are falsy, everything else truthy. -/
def PyValue.truthy : PyValue → Bool
  | .null => false
  | .bool b => b
  | .int n => n != 0
  | .str s => !s.isEmpty
  | .list xs => !xs.isEmpty
  | .dict kvs => !kvs.isEmpty

/-- Truthiness of an optional JSON value, as Python evaluates `not json_data`:
None is falsy, otherwise the value's own truthiness decides. -/
def pyTruthyOpt : Option PyValue → Bool
  | none => false
  | some v => v.truthy

/-- Model of an incoming request body, carrying the fields consulted by
get_json_data and the httpbin-style handlers: isJson is request.is_json
(whether the Content-Type header declares JSON), parsedJson is the result of
parsing the raw body as JSON (none when the body is empty or not valid JSON),
data is the raw body decoded as text, form is request.form.to_dict(). -/
structure Request where
  isJson : Bool
  parsedJson : Option PyValue
  data : String
  form : List (String × String)

/-- Translation of get_json_data (test_server.py lines 22-37). Flask's
request.json property, taken in the is_json branch, raises werkzeug's
BadRequest when the declared-JSON body fails to parse, and the surrounding
code does not catch that, so the result is wrapped in Except; the fallback
branch wraps json.loads in a bare try/except and returns None on any error
or when the body is empty. -/
def get_json_data (r : Request) : Except String (Option PyValue) :=
  if r.isJson then
    match r.parsedJson with
    | some v => .ok (some v)
    | none => .error "BadRequest"
  else if r.data ≠ "" then .ok r.parsedJson
  else .ok none

/-- The body-dependent part of the httpbin-style JSON reply of /put, /patch
and /delete; args, headers, origin and url are verbatim copies of request
fields and are omitted from the model. -/
structure HttpbinResponse where
  data : String
  form : List (String × String)
  json : Option PyValue

/-- Translation of httpbin_put (lines 199-215): the data field holds the raw
body text exactly when `not json_data and not form_data` holds under Python
truthiness, else the empty string. -/
def httpbin_put (r : Request) : Except String HttpbinResponse :=
  (get_json_data r).map fun jsonData =>
    { data := if !pyTruthyOpt jsonData && r.form.isEmpty then r.data else ""
      form := r.form
      json := jsonData }

/-- Translation of httpbin_patch (lines 217-233); the body is identical to
httpbin_put. -/
def httpbin_patch (r : Request) : Except String HttpbinResponse :=
  (get_json_data r).map fun jsonData =>
    { data := if !pyTruthyOpt jsonData && r.form.isEmpty then r.data else ""
      form := r.form
      json := jsonData }

/-- Translation of httpbin_delete (lines 235-251); the body is identical to
httpbin_put. -/
def httpbin_delete (r : Request) : Except String HttpbinResponse :=
  (get_json_data r).map fun jsonData =>
    { data := if !pyTruthyOpt jsonData && r.form.isEmpty then r.data else ""
      form := r.form
      json := jsonData }

/-- Model of Python's str.replace for a nonempty pattern, over character
lists: every occurrence of pat is replaced by rep, scanning left to right.
fuel only bounds the number of steps; pyReplace supplies the length of the
scanned list, which is never exhausted because each step consumes at least
one character. -/
def pyReplaceF (pat rep : List Char) : Nat → List Char → List Char
  | _, [] => []
  | 0, cs => cs
  | fuel + 1, c :: rest =>
    if pat ≠ [] ∧ (c :: rest).take pat.length = pat then
      rep ++ pyReplaceF pat rep fuel ((c :: rest).drop pat.length)
    else c :: pyReplaceF pat rep fuel rest

/-- Python str.replace(pat, rep) on character lists, for nonempty pat. -/
def pyReplace (pat rep cs : List Char) : List Char :=
  pyReplaceF pat rep cs.length cs

/-- Python str.split(sep) with a one-character separator, on character lists:
splitting the empty string gives Python's [''], that is [[]]. -/
def pySplit (sep : Char) : List Char → List (List Char)
  | [] => [[]]
  | c :: rest =>
    let r := pySplit sep rest
    if c == sep then [] :: r
    else (c :: r.headD []) :: r.tail

/-- Python str.strip(): whitespace removed from both ends. -/
def pyStrip (cs : List Char) : List Char :=
  ((cs.dropWhile Char.isWhitespace).reverse.dropWhile Char.isWhitespace).reverse

/-- Helper for pyInt: parses a nonempty run of decimal digits in which single
underscores may stand between digits, as Python's int() accepts. prevDigit
records whether the previous character was a digit, so that an underscore is
legal and the end of input is a complete parse. -/
def pyDigits : List Char → Nat → Bool → Option Nat
  | [], acc, prevDigit => if prevDigit then some acc else none
  | c :: rest, acc, prevDigit =>
    if c.isDigit then pyDigits rest (acc * 10 + (c.toNat - '0'.toNat)) true
    else if c == '_' && prevDigit then pyDigits rest acc false
    else none

/-- Model of Python's int(str) conversion as used on the pieces of the Range
header: surrounding whitespace is stripped, one optional sign is allowed, then
a nonempty digit run; every other string raises ValueError, modelled as none. -/
def pyInt (cs : List Char) : Option Int :=
  match pyStrip cs with
  | '-' :: rest => (pyDigits rest 0 false).map fun n => -(n : Int)
  | '+' :: rest => (pyDigits rest 0 false).map fun n => (n : Int)
  | ds => (pyDigits ds 0 false).map fun n => (n : Int)

/-- The try block at lines 304-323 of serve_file, applied to the
dash-separated pieces of the Range header value. Assignments made to
start/end before an int() call raises survive, because the except handler
merely swallows the error; status 206 is assigned last, so a raise leaves
the status at 200. In the non-suffix branch the end bound is capped at
totalSize - 1 after parsing. -/
def tryParseRange (parts : List (List Char)) (totalSize start0 end0 : Int) : Int × Int × Nat :=
  let p0 := parts.headD []
  let p1 := parts.getD 1 []
  if p0 = [] ∧ 1 < parts.length ∧ p1 ≠ [] then
    match pyInt p1 with
    | none => (start0, end0, 200)
    | some n => (totalSize - n, totalSize - 1, 206)
  else
    match (if p0 ≠ [] then pyInt p0 else some start0) with
    | none => (start0, end0, 200)
    | some s =>
      match (if 1 < parts.length ∧ p1 ≠ [] then pyInt p1 else some end0) with
      | none => (s, end0, 200)
      | some e => (s, if totalSize ≤ e then totalSize - 1 else e, 206)

/-- Range resolution of serve_file (lines 297-326): the defaults cover the
whole file and status 200; a present header is stripped of every occurrence
of the literal "bytes=", split on dashes and fed to tryParseRange. -/
def resolveRange (rangeHeader : Option String) (totalSize : Int) : Int × Int × Nat :=
  match rangeHeader with
  | none => (0, totalSize - 1, 200)
  | some h =>
    tryParseRange (pySplit '-' (pyReplace "bytes=".toList [] h.toList))
      totalSize 0 (totalSize - 1)

/-- Transfer chunk size of serve_file, line 295: 64 KiB. -/
def chunkSize : Nat := 64 * 1024

/-- Loop of serve_file's generate (lines 354-362): read at most chunkSize
bytes, capped by the bytes still to send, stop on an empty read, and count
the delivered bytes off bytesToSend; pos tracks the position of the file
handle. -/
def generateLoop (file : List Nat) (pos bytesToSend : Nat) : List (List Nat) :=
  if h : bytesToSend = 0 then []
  else if h2 : ((file.drop pos).take (min chunkSize bytesToSend)).length = 0 then []
  else
    ((file.drop pos).take (min chunkSize bytesToSend)) ::
      generateLoop file (pos + ((file.drop pos).take (min chunkSize bytesToSend)).length)
        (bytesToSend - ((file.drop pos).take (min chunkSize bytesToSend)).length)
  termination_by bytesToSend
  decreasing_by exact Nat.sub_lt (Nat.pos_of_ne_zero h) (Nat.pos_of_ne_zero h2)

/-- Translation of serve_file's generate (lines 339-362). Seeking a buffered
file handle to a negative position raises ValueError inside the generator, so
no chunk is ever yielded then, modelled as none; otherwise the loop runs from
startByte with contentLength bytes to send. -/
def generate (file : List Nat) (startByte contentLength : Int) : Option (List (List Nat)) :=
  if startByte < 0 then none
  else some (generateLoop file startByte.toNat contentLength.toNat)

/-- Model of the response produced by serve_file. chunks is the streamed body:
some cs when the generator completes having yielded cs, none when there is no
stream at all (the 404 and 416 text responses) or the generator raises before
its first yield. contentLengthHeader and contentRangeHeader hold the header
values the handler itself sets; ETag, Last-Modified, Accept-Ranges,
Content-Type and Content-Disposition depend only on file metadata and are
omitted. -/
structure FileResponse where
  status : Nat
  errorBody : Option String
  chunks : Option (List (List Nat))
  contentLengthHeader : Option String
  contentRangeHeader : Option String

/-- Translation of serve_file (lines 284-390) for a request whose target file
either does not exist (file = none) or has the given byte content; rangeHeader
is the Range header and noContentLength the no_content_length=true query
flag. -/
def serve_file (file : Option (List Nat)) (rangeHeader : Option String)
    (noContentLength : Bool) : FileResponse :=
  match file with
  | none =>
    { status := 404, errorBody := some "File not found", chunks := none,
      contentLengthHeader := none, contentRangeHeader := none }
  | some bytes =>
    let totalSize : Int := bytes.length
    let r := resolveRange rangeHeader totalSize
    let startByte := r.1
    let endByte := r.2.1
    let statusCode := r.2.2
    if startByte > endByte then
      { status := 416, errorBody := some "Requested Range Not Satisfiable",
        chunks := none, contentLengthHeader := none, contentRangeHeader := none }
    else
      let contentLength := endByte - startByte + 1
      { status := statusCode
        errorBody := none
        chunks := generate bytes startByte contentLength
        contentLengthHeader := if noContentLength then none else some (toString contentLength)
        contentRangeHeader :=
          if statusCode = 206 then
            some ("bytes " ++ toString startByte ++ "-" ++ toString endByte ++ "/"
              ++ toString totalSize)
          else none }

/-- werkzeug MultiDict.items() with its default multi=False, as request.args
is iterated in response_headers: one pair per key, carrying the first value,
in order of first appearance. seen collects the keys already emitted. -/
def itemsFirstAux : List (String × String) → List String → List (String × String)
  | [], _ => []
  | (k, v) :: rest, seen =>
    if seen.contains k then itemsFirstAux rest seen
    else (k, v) :: itemsFirstAux rest (k :: seen)

/-- MultiDict.items() of the whole query-parameter list. -/
def itemsFirst (args : List (String × String)) : List (String × String) :=
  itemsFirstAux args []

/-- Case-insensitive comparison of header names, as werkzeug Headers performs
it by lowercasing both sides. -/
def lowerEq (a b : String) : Bool :=
  a.toList.map Char.toLower == b.toList.map Char.toLower

/-- werkzeug Headers item assignment, resp.headers[key] = value: every
existing header whose name matches case-insensitively is removed, then the
new pair is appended. -/
def setHeader (hs : List (String × String)) (k v : String) : List (String × String) :=
  (hs.filter fun p => !lowerEq p.1 k) ++ [(k, v)]

/-- Translation of response_headers (lines 392-401): iterate
request.args.items() and assign each pair into the response headers; the
response's initial default headers are not modelled, the fold starts empty. -/
def response_headers (args : List (String × String)) : List (String × String) :=
  (itemsFirst args).foldl (fun hs kv => setHeader hs kv.1 kv.2) []

/-- Number of headers in a header list whose name equals k up to case, the
notion of header multiplicity relevant to repeated Set-Cookie style headers. -/
def headerCount (hs : List (String × String)) (k : String) : Nat :=
  hs.countP fun p => lowerEq p.1 k

/-!
Helper lemmas about the embedded definitions.
-/

theorem chunkSize_pos : 0 < chunkSize := by norm_num [chunkSize]

/-- Concatenating the chunks yielded by the generator loop reproduces exactly
the bytes of the file from position pos, capped at n bytes. -/
theorem generateLoop_flatten (file : List Nat) (pos n : Nat) :
    (generateLoop file pos n).flatten = (file.drop pos).take n := by
  induction n using Nat.strong_induction_on generalizing pos with
  | _ n ih =>
    rw [generateLoop]
    by_cases hn : n = 0
    · simp [hn]
    · rw [dif_neg hn]
      by_cases h2 : ((file.drop pos).take (min chunkSize n)).length = 0
      · rw [dif_pos h2]
        have hr0 : 0 < min chunkSize n := by
          have := chunkSize_pos; omega
        have hl0 : (file.drop pos).length = 0 := by
          rw [List.length_take] at h2; omega
        have hnil : file.drop pos = [] := List.eq_nil_of_length_eq_zero hl0
        simp [hnil]
      · rw [dif_neg h2]
        have hc1 : 0 < ((file.drop pos).take (min chunkSize n)).length := Nat.pos_of_ne_zero h2
        rw [List.flatten_cons, ih _ (Nat.sub_lt (Nat.pos_of_ne_zero hn) hc1)]
        have hdd : file.drop (pos + ((file.drop pos).take (min chunkSize n)).length)
            = (file.drop pos).drop (((file.drop pos).take (min chunkSize n)).length) := by
          rw [List.drop_drop, Nat.add_comm]
        rw [hdd]
        set l := file.drop pos with hl
        set r := min chunkSize n with hr
        have hrn : r ≤ n := by omega
        have hcl : (l.take r).length = min r l.length := by rw [List.length_take]
        rcases le_or_lt r l.length with hle | hlt
        · have hc : (l.take r).length = r := by omega
          rw [hc]
          have hsplit : n = r + (n - r) := by omega
          rw [hsplit, List.take_add]
          have h4 : r + (n - r) - r = n - r := by omega
          rw [h4]
        · have hc : (l.take r).length = l.length := by omega
          rw [hc]
          have h1 : l.take r = l := List.take_of_length_le (le_of_lt hlt)
          have h2' : l.drop l.length = [] := List.drop_length l
          rw [h1, h2']
          have h3 : l.take n = l := List.take_of_length_le (by omega)
          simp [h3]

/-- Every chunk the generator loop yields was produced by a read of at most
chunkSize bytes. -/
theorem generateLoop_chunk_le (file : List Nat) (pos n : Nat) :
    ∀ c ∈ generateLoop file pos n, c.length ≤ chunkSize := by
  induction n using Nat.strong_induction_on generalizing pos with
  | _ n ih =>
    intro c hc
    rw [generateLoop] at hc
    by_cases hn : n = 0
    · simp [hn] at hc
    · rw [dif_neg hn] at hc
      by_cases h2 : ((file.drop pos).take (min chunkSize n)).length = 0
      · rw [dif_pos h2] at hc; simp at hc
      · rw [dif_neg h2] at hc
        rcases List.mem_cons.mp hc with rfl | hmem
        · rw [List.length_take]; omega
        · exact ih _ (Nat.sub_lt (Nat.pos_of_ne_zero hn) (Nat.pos_of_ne_zero h2)) _ _ hmem

/-- Whatever the header parses to, the resolved end bound never exceeds
totalSize - 1, provided the default it starts from does not. -/
theorem tryParseRange_end_le (parts : List (List Char)) (t s0 e0 : Int)
    (he : e0 ≤ t - 1) : (tryParseRange parts t s0 e0).2.1 ≤ t - 1 := by
  unfold tryParseRange
  dsimp only
  split
  · split
    · dsimp only; exact he
    · dsimp only; exact le_rfl
  · split
    · dsimp only; exact he
    · split
      · dsimp only; exact he
      · dsimp only
        split
        · exact le_rfl
        · omega

/-- The resolved end bound of any request is at most totalSize - 1. -/
theorem resolveRange_end_le (h : Option String) (t : Int) :
    (resolveRange h t).2.1 ≤ t - 1 := by
  cases h with
  | none => simp [resolveRange]
  | some s => exact tryParseRange_end_le _ _ _ _ le_rfl

theorem lowerEq_iff (a b : String) :
    lowerEq a b = true ↔ a.toList.map Char.toLower = b.toList.map Char.toLower := by
  simp [lowerEq]

theorem headerCount_setHeader (hs : List (String × String)) (k' v k : String) :
    headerCount (setHeader hs k' v) k = if lowerEq k' k then 1 else headerCount hs k := by
  unfold headerCount setHeader
  rw [List.countP_append]
  by_cases h : lowerEq k' k = true
  · rw [if_pos h]
    have h0 : (hs.filter fun p => !lowerEq p.1 k').countP (fun p => lowerEq p.1 k) = 0 := by
      rw [List.countP_eq_zero]
      intro p hp hpk
      have hpf := List.of_mem_filter hp
      rw [Bool.not_eq_eq_eq_not, Bool.not_true] at hpf
      rw [lowerEq_iff] at h hpk
      rw [Bool.eq_false_iff, Ne, lowerEq_iff] at hpf
      exact hpf (hpk.trans h.symm)
    rw [h0]
    simp [h]
  · rw [if_neg h]
    have h1 : (hs.filter fun p => !lowerEq p.1 k').countP (fun p => lowerEq p.1 k)
        = hs.countP (fun p => lowerEq p.1 k) := by
      rw [List.countP_filter]
      apply List.countP_congr
      intro p _
      by_cases hpk : lowerEq p.1 k = true
      · have hpk' : lowerEq p.1 k' = false := by
          rw [Bool.eq_false_iff, Ne, lowerEq_iff]
          intro hq
          rw [lowerEq_iff] at hpk
          exact h (by rw [lowerEq_iff]; exact hq.symm.trans hpk)
        simp [hpk, hpk']
      · simp [Bool.eq_false_iff.mpr hpk]
    rw [h1]
    have h2 : List.countP (fun p => lowerEq p.1 k) [(k', v)] = 0 := by
      simp [List.countP_cons, h]
    rw [h2]
    omega

theorem foldl_setHeader_count_le (l : List (String × String)) (hs : List (String × String))
    (k : String) (h : headerCount hs k ≤ 1) :
    headerCount (l.foldl (fun hs kv => setHeader hs kv.1 kv.2) hs) k ≤ 1 := by
  induction l generalizing hs with
  | nil => simpa using h
  | cons kv rest ih =>
    rw [List.foldl_cons]
    apply ih
    rw [headerCount_setHeader]
    split
    · exact le_rfl
    · exact h

theorem foldl_setHeader_mem (l : List (String × String)) (hs : List (String × String))
    (p : String × String)
    (hp : p ∈ l.foldl (fun hs kv => setHeader hs kv.1 kv.2) hs) : p ∈ hs ∨ p ∈ l := by
  induction l generalizing hs with
  | nil => exact Or.inl (by simpa using hp)
  | cons kv rest ih =>
    rw [List.foldl_cons] at hp
    rcases ih _ hp with hin | hin
    · unfold setHeader at hin
      rcases List.mem_append.mp hin with h1 | h1
      · exact Or.inl (List.mem_of_mem_filter h1)
      · right
        simp only [List.mem_singleton] at h1
        rw [h1]
        exact List.mem_cons_self _ _
    · exact Or.inr (List.mem_cons_of_mem _ hin)

theorem serve_file_eq_416 (bytes : List Nat) (rh : Option String) (ncl : Bool)
    (s e : Int) (st : Nat)
    (hr : resolveRange rh (bytes.length : Int) = (s, e, st)) (hse : e < s) :
    serve_file (some bytes) rh ncl =
      { status := 416, errorBody := some "Requested Range Not Satisfiable",
        chunks := none, contentLengthHeader := none, contentRangeHeader := none } := by
  unfold serve_file
  dsimp only
  rw [hr]
  dsimp only
  rw [if_pos hse]

theorem serve_file_eq_stream (bytes : List Nat) (rh : Option String) (ncl : Bool)
    (s e : Int) (st : Nat)
    (hr : resolveRange rh (bytes.length : Int) = (s, e, st)) (hse : s ≤ e) :
    serve_file (some bytes) rh ncl =
      { status := st, errorBody := none,
        chunks := generate bytes s (e - s + 1),
        contentLengthHeader := if ncl then none else some (toString (e - s + 1)),
        contentRangeHeader :=
          if st = 206 then
            some ("bytes " ++ toString s ++ "-" ++ toString e ++ "/"
              ++ toString (bytes.length : Int))
          else none } := by
  unfold serve_file
  dsimp only
  rw [hr]
  dsimp only
  rw [if_neg (not_lt.mpr hse)]

theorem pyInt_nil : pyInt [] = none := rfl

/-- A header that splits into an explicit nonempty first piece parsing to A
and a second piece parsing to B below totalSize resolves to (A, B, 206). -/
theorem tryParseRange_two (sa sb : List Char) (t A B : Int)
    (hsa : sa ≠ []) (hA : pyInt sa = some A) (hB : pyInt sb = some B)
    (hBt : B < t) :
    tryParseRange [sa, sb] t 0 (t - 1) = (A, B, 206) := by
  have hsb : sb ≠ [] := by
    intro hn
    rw [hn, pyInt_nil] at hB
    cases hB
  unfold tryParseRange
  simp only [List.headD_cons, List.getD_cons_succ, List.getD_cons_zero,
    List.length_cons, List.length_nil]
  rw [if_neg (by intro hc; exact hsa hc.1)]
  rw [if_pos hsa, hA]
  dsimp only
  rw [if_pos ⟨by norm_num, hsb⟩, hB]
  dsimp only
  rw [if_neg (not_le.mpr hBt)]

/-- A header that splits into an empty first piece and a parsable second piece
resolves as a suffix range. -/
theorem tryParseRange_suffix (sN : List Char) (t N : Int)
    (hN : pyInt sN = some N) :
    tryParseRange [[], sN] t 0 (t - 1) = (t - N, t - 1, 206) := by
  have hsN : sN ≠ [] := by
    intro hn
    rw [hn, pyInt_nil] at hN
    cases hN
  unfold tryParseRange
  simp only [List.headD_cons, List.getD_cons_succ, List.getD_cons_zero,
    List.length_cons, List.length_nil]
  rw [if_pos ⟨by trivial, by norm_num, hsN⟩, hN]

/-- C10: every chunk the serve_file generator yields has size at most
64 KiB = 65536 bytes, the total number of bytes yielded never exceeds the
requested byte count, and the loop (a total function here, hence terminating)
stops exactly after delivering the requested count or exhausting the file:
its concatenated output is the file from pos capped at bytesToSend bytes. -/
theorem generateLoop_invariants (file : List Nat) (pos n : Nat) :
    chunkSize = 65536 ∧
    (∀ c ∈ generateLoop file pos n, c.length ≤ 65536) ∧
    (generateLoop file pos n).flatten.length ≤ n ∧
    (generateLoop file pos n).flatten = (file.drop pos).take n := by
  refine ⟨by norm_num [chunkSize], ?_, ?_, generateLoop_flatten file pos n⟩
  · intro c hc
    have h := generateLoop_chunk_le file pos n c hc
    rw [chunkSize] at h
    omega
  · rw [generateLoop_flatten, List.length_take]
    omega

theorem generateLoop_invariants_witness :
    [1, 2, 3] ∈ generateLoop [1, 2, 3] 0 3 ∧ ([1, 2, 3] : List Nat).length ≤ 65536 :=
  ⟨by simp [generateLoop, chunkSize],
   (generateLoop_invariants [1, 2, 3] 0 3).2.1 [1, 2, 3] (by simp [generateLoop, chunkSize])⟩

/-- C2: after range resolution either the invariant start ≤ end < totalSize
holds and the streaming response is returned with the resolved status code,
or the response is 416 with the plain-text error body and no streamed chunks.
serve_file is a total function of its inputs, so the handler terminates
without raising on every Range header, including bytes=-N with N beyond the
file size. -/
theorem serve_file_invariant_or_416 (bytes : List Nat) (rh : Option String) (ncl : Bool) :
    ((resolveRange rh (bytes.length : Int)).1 ≤ (resolveRange rh (bytes.length : Int)).2.1 ∧
     (resolveRange rh (bytes.length : Int)).2.1 < (bytes.length : Int) ∧
     (serve_file (some bytes) rh ncl).status = (resolveRange rh (bytes.length : Int)).2.2 ∧
     (serve_file (some bytes) rh ncl).errorBody = none) ∨
    ((serve_file (some bytes) rh ncl).status = 416 ∧
     (serve_file (some bytes) rh ncl).chunks = none ∧
     (serve_file (some bytes) rh ncl).errorBody = some "Requested Range Not Satisfiable") := by
  rcases hr : resolveRange rh (bytes.length : Int) with ⟨s, e, st⟩
  dsimp only
  by_cases hse : e < s
  · right
    rw [serve_file_eq_416 bytes rh ncl s e st hr hse]
    exact ⟨rfl, rfl, rfl⟩
  · left
    push_neg at hse
    have hend := resolveRange_end_le rh (bytes.length : Int)
    rw [hr] at hend
    dsimp only at hend
    rw [serve_file_eq_stream bytes rh ncl s e st hr hse]
    exact ⟨hse, by omega, rfl, rfl⟩

/-- C5 counterexample: a GET for an existing zero-byte file with no Range
header does not terminate in a successful stream of zero chunks: the default
resolved range is start 0, end -1, so the handler takes the terminal
RangeNotSatisfiable failure, status 416 with the error body and no stream. -/
theorem serve_file_empty_file_counterexample :
    (serve_file (some ([] : List Nat)) none false).status = 416 ∧
    (serve_file (some ([] : List Nat)) none false).errorBody
      = some "Requested Range Not Satisfiable" ∧
    (serve_file (some ([] : List Nat)) none false).chunks = none := by
  decide

/-- C5 amended: a GET for an existing zero-byte file with no Range header
terminates in the RangeNotSatisfiable terminal failure (416), and the
contentLength = 0 zero-chunk stream is unreachable: every response that
enters the streaming path has contentLength = end - start + 1 at least 1. -/
theorem serve_file_empty_file_416 (bytes : List Nat) (h : Option String) (ncl : Bool) :
    (serve_file (some ([] : List Nat)) none ncl).status = 416 ∧
    ((serve_file (some bytes) h ncl).errorBody = none →
      1 ≤ (resolveRange h (bytes.length : Int)).2.1
        - (resolveRange h (bytes.length : Int)).1 + 1) := by
  constructor
  · rw [serve_file_eq_416 [] none ncl 0 (-1) 200 (by decide) (by decide)]
  · intro hne
    rcases hr : resolveRange h (bytes.length : Int) with ⟨s, e, st⟩
    dsimp only
    by_cases hse : e < s
    · rw [serve_file_eq_416 bytes h ncl s e st hr hse] at hne
      simp at hne
    · push_neg at hse
      omega

theorem serve_file_empty_file_416_witness :
    (serve_file (some [5]) none false).errorBody = none ∧
    1 ≤ (resolveRange none (([5] : List Nat).length : Int)).2.1
      - (resolveRange none (([5] : List Nat).length : Int)).1 + 1 :=
  ⟨by decide, (serve_file_empty_file_416 [5] none false).2 (by decide)⟩

/-- C9 counterexample: a query parameter name repeated twice does not produce
two response headers: GET /response-headers with query a=1&a=2 emits exactly
one header named a, carrying the first value. -/
theorem response_headers_repeated_counterexample :
    response_headers [("a", "1"), ("a", "2")] = [("a", "1")] ∧
    headerCount (response_headers [("a", "1"), ("a", "2")]) "a" ≠ 2 := by
  decide

/-- C9 amended: every query parameter name yields at most one response header
(names compared case-insensitively as werkzeug stores them), and every emitted
header is one of the (name, first value) pairs of the query string: a name
repeated k times collapses to a single header with its first value. -/
theorem response_headers_at_most_once (args : List (String × String)) :
    (∀ k, headerCount (response_headers args) k ≤ 1) ∧
    (∀ p ∈ response_headers args, p ∈ itemsFirst args) := by
  constructor
  · intro k
    unfold response_headers
    apply foldl_setHeader_count_le
    simp [headerCount]
  · intro p hp
    unfold response_headers at hp
    rcases foldl_setHeader_mem _ _ _ hp with hin | hin
    · simp at hin
    · exact hin

theorem response_headers_at_most_once_witness :
    headerCount (response_headers [("a", "1"), ("a", "2")]) "a" ≤ 1 ∧
    (("a", "1") ∈ response_headers [("a", "1"), ("a", "2")] ∧
     ("a", "1") ∈ itemsFirst [("a", "1"), ("a", "2")]) :=
  ⟨(response_headers_at_most_once [("a", "1"), ("a", "2")]).1 "a",
   by decide,
   (response_headers_at_most_once [("a", "1"), ("a", "2")]).2 ("a", "1") (by decide)⟩

/-- C1: for every existing file and Range header that splits as bytes=A-B
with 0 ≤ A ≤ B < totalSize, the response has status 206, a Content-Range
header equal to bytes A-B/totalSize, and the concatenation of the emitted
chunks is exactly the slice file[A..B] inclusive: no corruption, duplication
or truncation. -/
theorem serve_file_explicit_range (bytes : List Nat) (h : String) (sa sb : List Char)
    (A B : Int) (ncl : Bool)
    (hsplit : pySplit '-' (pyReplace "bytes=".toList [] h.toList) = [sa, sb])
    (hsa : sa ≠ []) (hA : pyInt sa = some A) (hB : pyInt sb = some B)
    (h0 : 0 ≤ A) (hAB : A ≤ B) (hBt : B < (bytes.length : Int)) :
    (serve_file (some bytes) (some h) ncl).status = 206 ∧
    (serve_file (some bytes) (some h) ncl).contentRangeHeader
      = some ("bytes " ++ toString A ++ "-" ++ toString B ++ "/"
          ++ toString (bytes.length : Int)) ∧
    (serve_file (some bytes) (some h) ncl).chunks.map List.flatten
      = some ((bytes.drop A.toNat).take (B - A + 1).toNat) := by
  have hr : resolveRange (some h) (bytes.length : Int) = (A, B, 206) := by
    unfold resolveRange
    dsimp only
    rw [hsplit]
    exact tryParseRange_two sa sb _ A B hsa hA hB hBt
  rw [serve_file_eq_stream bytes (some h) ncl A B 206 hr hAB]
  refine ⟨rfl, by rw [if_pos rfl], ?_⟩
  dsimp only
  unfold generate
  rw [if_neg (not_lt.mpr h0)]
  simp only [Option.map_some']
  rw [generateLoop_flatten]

theorem serve_file_explicit_range_witness :
    pySplit '-' (pyReplace "bytes=".toList [] "bytes=1-3".toList) = [['1'], ['3']] ∧
    pyInt ['1'] = some 1 ∧ pyInt ['3'] = some 3 ∧
    ((serve_file (some [10, 11, 12, 13, 14]) (some "bytes=1-3") false).status = 206 ∧
     (serve_file (some [10, 11, 12, 13, 14]) (some "bytes=1-3") false).contentRangeHeader
       = some ("bytes " ++ toString (1 : Int) ++ "-" ++ toString (3 : Int) ++ "/"
           ++ toString (([10, 11, 12, 13, 14] : List Nat).length : Int)) ∧
     (serve_file (some [10, 11, 12, 13, 14]) (some "bytes=1-3") false).chunks.map List.flatten
       = some ((([10, 11, 12, 13, 14] : List Nat).drop (1 : Int).toNat).take
           ((3 - 1 + 1 : Int)).toNat)) :=
  ⟨by decide, by decide, by decide,
   serve_file_explicit_range [10, 11, 12, 13, 14] "bytes=1-3" ['1'] ['3'] 1 3 false
     (by decide) (by decide) (by decide) (by decide) (by decide) (by decide) (by decide)⟩

/-- C3 counterexample: for the one-byte file [7] and Range bytes=-2 (so
N = 2 > totalSize = 1), the resolved start is totalSize - N = -1, and the
generator raises on the negative seek before yielding anything, so no byte
span at all is returned - in particular not the whole file, the only
available suffix. -/
theorem serve_file_suffix_overshoot_counterexample :
    resolveRange (some "bytes=-2") ((([7] : List Nat).length : Int)) = (-1, 0, 206) ∧
    (serve_file (some [7]) (some "bytes=-2") false).status = 206 ∧
    (serve_file (some [7]) (some "bytes=-2") false).chunks = none ∧
    (serve_file (some [7]) (some "bytes=-2") false).chunks.map List.flatten
      ≠ some [7] := by
  decide

/-- C3 amended: for every existing file and Range header bytes=-N with
0 < N ≤ totalSize, the resolved range is start = totalSize - N,
end = totalSize - 1, the status is 206, and the returned span is exactly the
last N bytes of the file; for N > totalSize the resolved start is negative
and the generator delivers nothing. -/
theorem serve_file_suffix_range (bytes : List Nat) (h : String) (sN : List Char)
    (N : Int) (ncl : Bool)
    (hsplit : pySplit '-' (pyReplace "bytes=".toList [] h.toList) = [[], sN])
    (hN : pyInt sN = some N)
    (h0 : 0 < N) (hNt : N ≤ (bytes.length : Int)) :
    resolveRange (some h) (bytes.length : Int)
      = ((bytes.length : Int) - N, (bytes.length : Int) - 1, 206) ∧
    (serve_file (some bytes) (some h) ncl).status = 206 ∧
    (serve_file (some bytes) (some h) ncl).chunks.map List.flatten
      = some (bytes.drop ((bytes.length : Int) - N).toNat) := by
  have hr : resolveRange (some h) (bytes.length : Int)
      = ((bytes.length : Int) - N, (bytes.length : Int) - 1, 206) := by
    unfold resolveRange
    dsimp only
    rw [hsplit]
    exact tryParseRange_suffix sN _ N hN
  have hse : (bytes.length : Int) - N ≤ (bytes.length : Int) - 1 := by omega
  rw [serve_file_eq_stream bytes (some h) ncl _ _ 206 hr hse]
  refine ⟨hr, rfl, ?_⟩
  dsimp only
  unfold generate
  rw [if_neg (by omega)]
  simp only [Option.map_some']
  rw [generateLoop_flatten]
  congr 1
  apply List.take_of_length_le
  rw [List.length_drop]
  omega

theorem serve_file_suffix_range_witness :
    pySplit '-' (pyReplace "bytes=".toList [] "bytes=-2".toList) = [[], ['2']] ∧
    pyInt ['2'] = some 2 ∧
    (resolveRange (some "bytes=-2") (([10, 11, 12] : List Nat).length : Int)
       = ((([10, 11, 12] : List Nat).length : Int) - 2,
          (([10, 11, 12] : List Nat).length : Int) - 1, 206) ∧
     (serve_file (some [10, 11, 12]) (some "bytes=-2") false).status = 206 ∧
     (serve_file (some [10, 11, 12]) (some "bytes=-2") false).chunks.map List.flatten
       = some (([10, 11, 12] : List Nat).drop
           ((([10, 11, 12] : List Nat).length : Int) - 2).toNat)) :=
  ⟨by decide, by decide,
   serve_file_suffix_range [10, 11, 12] "bytes=-2" ['2'] 2 false
     (by decide) (by decide) (by decide) (by decide)⟩

/-- C6 counterexample: on an existing file with an unsatisfiable range and
no_content_length left unset, the 416 response carries no Content-Length
header set by the handler, although the claim requires one equal to
end - start + 1 whenever the parameter is not true. -/
theorem serve_file_content_length_counterexample :
    (serve_file (some [1, 2, 3]) (some "bytes=5-2") false).status = 416 ∧
    (serve_file (some [1, 2, 3]) (some "bytes=5-2") false).contentLengthHeader = none := by
  decide

/-- C6 amended: for every request on an existing file whose resolved range
satisfies 0 ≤ start ≤ end, the handler sets a Content-Length header equal to
end - start + 1 exactly when no_content_length is not true, and the streamed
body delivers the full requested byte span in either case. -/
theorem serve_file_content_length_header (bytes : List Nat) (rh : Option String)
    (ncl : Bool) (s e : Int) (st : Nat)
    (hr : resolveRange rh (bytes.length : Int) = (s, e, st))
    (h0 : 0 ≤ s) (hse : s ≤ e) :
    (serve_file (some bytes) rh ncl).contentLengthHeader
      = (if ncl then none else some (toString (e - s + 1))) ∧
    (serve_file (some bytes) rh ncl).chunks.map List.flatten
      = some ((bytes.drop s.toNat).take (e - s + 1).toNat) := by
  rw [serve_file_eq_stream bytes rh ncl s e st hr hse]
  refine ⟨rfl, ?_⟩
  dsimp only
  unfold generate
  rw [if_neg (not_lt.mpr h0)]
  simp only [Option.map_some']
  rw [generateLoop_flatten]

theorem serve_file_content_length_header_witness :
    resolveRange none (([1, 2, 3] : List Nat).length : Int) = (0, 2, 200) ∧
    ((serve_file (some [1, 2, 3]) none true).contentLengthHeader
       = (if true then none else some (toString ((2 : Int) - 0 + 1))) ∧
     (serve_file (some [1, 2, 3]) none true).chunks.map List.flatten
       = some ((([1, 2, 3] : List Nat).drop (0 : Int).toNat).take ((2 - 0 + 1 : Int)).toNat)) :=
  ⟨by decide,
   serve_file_content_length_header [1, 2, 3] none true 0 2 200
     (by decide) (by decide) (by decide)⟩

/-- C7 counterexample: when the Content-Type header declares JSON but the
body does not parse, get_json_data reaches request.json, which raises
werkzeug's BadRequest; the accessor does not return a parsed structure or
None. -/
theorem get_json_data_raises_counterexample :
    get_json_data ⟨true, none, "not json", []⟩ = .error "BadRequest" ∧
    ¬ ∃ o, get_json_data ⟨true, none, "not json", []⟩ = .ok o := by
  refine ⟨rfl, ?_⟩
  rintro ⟨o, ho⟩
  simp [get_json_data] at ho

/-- C7 amended: get_json_data never raises when the Content-Type does not
declare JSON - it best-effort parses the nonempty body, returning None on
failure or an empty body - but when the Content-Type declares JSON it
returns the parsed structure only on success and raises BadRequest on a
malformed body. -/
theorem get_json_data_cases (r : Request) :
    (r.isJson = false →
      get_json_data r = .ok (if r.data = "" then none else r.parsedJson)) ∧
    (r.isJson = true → r.parsedJson = none →
      get_json_data r = .error "BadRequest") ∧
    (∀ v, r.isJson = true → r.parsedJson = some v →
      get_json_data r = .ok (some v)) := by
  refine ⟨?_, ?_, ?_⟩
  · intro hj
    by_cases hd : r.data = ""
    · simp [get_json_data, hj, hd]
    · simp [get_json_data, hj, hd]
  · intro hj hp
    simp [get_json_data, hj, hp]
  · intro v hj hp
    simp [get_json_data, hj, hp]

theorem get_json_data_cases_witness :
    get_json_data ⟨false, none, "abc", []⟩
      = .ok (if ("abc" : String) = "" then none else none) ∧
    get_json_data ⟨true, none, "abc", []⟩ = .error "BadRequest" ∧
    get_json_data ⟨true, some (.int 1), "1", []⟩ = .ok (some (.int 1)) :=
  ⟨(get_json_data_cases ⟨false, none, "abc", []⟩).1 rfl,
   (get_json_data_cases ⟨true, none, "abc", []⟩).2.1 rfl rfl,
   (get_json_data_cases ⟨true, some (.int 1), "1", []⟩).2.2 (.int 1) rfl rfl⟩

/-- C8 counterexample: a JSON body that parses to the falsy value 0 leaves
the data field of /put holding the raw body text "0", not the empty string,
although JSON data was parsed: the precedence is decided by Python
truthiness, not by parse success. -/
theorem httpbin_put_falsy_json_counterexample :
    httpbin_put ⟨true, some (.int 0), "0", []⟩
      = .ok { data := "0", form := [], json := some (.int 0) } ∧
    ("0" : String) ≠ "" :=
  ⟨rfl, by decide⟩

/-- C8 amended: /put, /patch and /delete behave identically, and the data
field of their reply equals the raw body text exactly when the parsed JSON
value is falsy under Python truthiness (absent, or a value such as 0, False
or an empty dict) and the form data is empty; whenever the JSON value is
truthy or form data is nonempty, data is the empty string. -/
theorem httpbin_data_precedence (r : Request) (res : HttpbinResponse) :
    httpbin_patch r = httpbin_put r ∧
    httpbin_delete r = httpbin_put r ∧
    (httpbin_put r = .ok res →
      res.form = r.form ∧
      ((pyTruthyOpt res.json = false ∧ r.form = []) → res.data = r.data) ∧
      ((pyTruthyOpt res.json = true ∨ r.form ≠ []) → res.data = "")) := by
  refine ⟨rfl, rfl, ?_⟩
  intro hok
  cases hg : get_json_data r with
  | error err =>
    unfold httpbin_put at hok
    rw [hg] at hok
    simp [Except.map] at hok
  | ok jd =>
    unfold httpbin_put at hok
    rw [hg] at hok
    simp only [Except.map] at hok
    injection hok with hok
    subst hok
    refine ⟨rfl, ?_, ?_⟩
    · rintro ⟨hfalse, hform⟩
      dsimp only at hfalse ⊢
      simp [hfalse, hform]
    · intro hcase
      dsimp only at hcase ⊢
      rcases hcase with htr | hne
      · simp [htr]
      · have hf : r.form.isEmpty = false := by
          cases hfm : r.form with
          | nil => exact absurd hfm hne
          | cons a l => rfl
        simp [hf]

theorem httpbin_data_precedence_witness :
    (httpbin_put ⟨false, none, "hello", []⟩
       = .ok { data := "hello", form := [], json := none }) ∧
    HttpbinResponse.data { data := "hello", form := [], json := none } = "hello" ∧
    (httpbin_put ⟨true, some (.int 1), "1", []⟩
       = .ok { data := "", form := [], json := some (.int 1) }) ∧
    HttpbinResponse.data { data := "", form := [], json := some (.int 1) } = "" :=
  ⟨rfl,
   (httpbin_data_precedence ⟨false, none, "hello", []⟩
      { data := "hello", form := [], json := none }).2.2 rfl |>.2.1 ⟨rfl, rfl⟩,
   rfl,
   (httpbin_data_precedence ⟨true, some (.int 1), "1", []⟩
      { data := "", form := [], json := some (.int 1) }).2.2 rfl |>.2.2 (Or.inl rfl)⟩

end TestServer
